import Mathlib

/-!
Shallow embedding of the sidecar-injector mutating admission webhook
(src/webhook/webhook.go, package webhook).

The pure decision and patch-generation code is translated directly; external
collaborators (Kubernetes JSON/YAML deserialization, the runtime object
defaulter, file I/O) are abstracted as inputs or, where the spec describes
them, modelled from the spec with a note in the doc comment.  Go maps of
annotations are modelled as optional association lists (the `none` case is
Go's nil map); a Go map lookup of a missing key yields the empty string, which
`annGet` reproduces.  In-place mutation of the shared `SidecarConfig` slices
is made visible by explicit state passing: `mutationCore` returns the
configuration that the handler leaves behind alongside the admission response.
-/

namespace Webhook

/-- Annotation key consulted for the opt-in decision (webhook.go line 36). -/
def webhookInjectKey : String := "sidecar-injector-mesher.io/inject"

/-- Annotation key consulted and written for the injected marker (webhook.go line 37). -/
def webhookStatusKey : String := "sidecar-injector-mesher.io/status"

/-- Projection of the external `corev1.Container` type: the fields the core
reads or that the orchestrator's defaulting pass fills in.  All other fields
ride along unchanged and are irrelevant to the patch shape. -/
structure Container where
  name : String
  image : String
  imagePullPolicy : String
deriving DecidableEq, Repr

/-- Projection of the external `corev1.Volume` type. -/
structure Volume where
  name : String
deriving DecidableEq, Repr

/-- Projection of the external `corev1.LocalObjectReference` type. -/
structure LocalObjectReference where
  name : String
deriving DecidableEq, Repr

/-- `Config` from webhook.go lines 59-63: the sidecar spec loaded from the
configuration file — containers, volumes and image-pull secrets to inject. -/
structure Config where
  containers : List Container
  volumes : List Volume
  imagePullSecret : List LocalObjectReference
deriving DecidableEq, Repr

/-- A Go `map[string]string` that may be nil: `none` is the nil map. -/
abbrev AnnMap := Option (List (String × String))

/-- First-match association-list lookup returning Go's zero value `""` when
the key is absent. -/
def lookupStr (k : String) : List (String × String) → String
  | [] => ""
  | (k', v) :: rest => if k' == k then v else lookupStr k rest

/-- Go map indexing `annotations[k]`: a nil map or a missing key yields `""`. -/
def annGet (ann : AnnMap) (k : String) : String :=
  match ann with
  | none => ""
  | some l => lookupStr k l

/-- Projection of `metav1.ObjectMeta`: namespace, name and the annotation map
(the only parts webhook.go reads). -/
structure ObjectMeta where
  ns : String
  name : String
  annotations : AnnMap
deriving DecidableEq, Repr

/-- Projection of `corev1.PodSpec`: the three lists the patch targets. -/
structure PodSpec where
  containers : List Container
  volumes : List Volume
  imagePullSecrets : List LocalObjectReference
deriving DecidableEq, Repr

/-- Projection of `corev1.Pod`. -/
structure Pod where
  metadata : ObjectMeta
  spec : PodSpec
deriving DecidableEq, Repr

/-- The dynamic `interface\x7b\x7d`-typed patch value of webhook.go's
`operation` struct, as a tagged variant: a single element, a wholesale list,
the single-key annotation map, or the annotation string. -/
inductive PatchValue where
  | container (c : Container)
  | containerList (cs : List Container)
  | volume (v : Volume)
  | volumeList (vs : List Volume)
  | secret (s : LocalObjectReference)
  | secretList (ss : List LocalObjectReference)
  | stringMap (m : List (String × String))
  | str (s : String)
deriving DecidableEq, Repr

/-- webhook.go's `operation` struct (lines 65-69), with the JSON field names
`op`, `path`, `value`. -/
structure Operation where
  op : String
  path : String
  value : PatchValue
deriving DecidableEq, Repr

/-- ASCII lower-casing of one character, as Go's `strings.ToLower` maps the
code points occurring in the compared annotation values. -/
def lowerChar (c : Char) : Char :=
  if 65 ≤ c.toNat && c.toNat ≤ 90 then Char.ofNat (c.toNat + 32) else c

/-- The external `strings.ToLower`, modelled character-wise.  Go's version
additionally folds non-ASCII letters, which cannot occur in the literals
`"injected"`, `"y"`, `"yes"` that the lowered value is compared against. -/
def stringsToLower (s : String) : String := ⟨s.data.map lowerChar⟩

/-- `requiredMutation` (webhook.go lines 148-171): a nil annotation map is
treated as empty; if the status annotation lower-cases to "injected" mutation
is not required; otherwise the switch on the lower-cased inject annotation
requires mutation exactly for "y" and "yes". -/
def requiredMutation (metaData : ObjectMeta) : Bool :=
  let status := annGet metaData.annotations webhookStatusKey
  if stringsToLower status == "injected" then
    false
  else
    let inject := stringsToLower (annGet metaData.annotations webhookInjectKey)
    if inject == "y" || inject == "yes" then true else false

/-- The loop body of `insertContainer` (webhook.go lines 173-192): the flag is
`len(dest) == 0` on entry and is cleared after the first element, which is
then emitted wholesale as a one-element list at the bare path; every element
emitted with the flag clear goes to the path with the append-to-end marker
appended, as a single value. -/
def insertContainerLoop : Bool → List Container → String → List Operation
  | _, [], _ => []
  | true, a :: rest, path =>
      { op := "add", path := path, value := .containerList [a] }
        :: insertContainerLoop false rest path
  | false, a :: rest, path =>
      { op := "add", path := path ++ "/-", value := .container a }
        :: insertContainerLoop false rest path

/-- `insertContainer` (webhook.go lines 173-192). -/
def insertContainer (dest add : List Container) (path : String) : List Operation :=
  insertContainerLoop (dest.length == 0) add path

/-- The loop body of `insertVolume` (webhook.go lines 194-213), same shape as
the container loop. -/
def insertVolumeLoop : Bool → List Volume → String → List Operation
  | _, [], _ => []
  | true, a :: rest, path =>
      { op := "add", path := path, value := .volumeList [a] }
        :: insertVolumeLoop false rest path
  | false, a :: rest, path =>
      { op := "add", path := path ++ "/-", value := .volume a }
        :: insertVolumeLoop false rest path

/-- `insertVolume` (webhook.go lines 194-213). -/
def insertVolume (dest add : List Volume) (path : String) : List Operation :=
  insertVolumeLoop (dest.length == 0) add path

/-- The loop body of `insertImagePullSecrets` (webhook.go lines 215-234). -/
def insertImagePullSecretsLoop : Bool → List LocalObjectReference → String → List Operation
  | _, [], _ => []
  | true, a :: rest, path =>
      { op := "add", path := path, value := .secretList [a] }
        :: insertImagePullSecretsLoop false rest path
  | false, a :: rest, path =>
      { op := "add", path := path ++ "/-", value := .secret a }
        :: insertImagePullSecretsLoop false rest path

/-- `insertImagePullSecrets` (webhook.go lines 215-234). -/
def insertImagePullSecrets (dest add : List LocalObjectReference) (path : String) :
    List Operation :=
  insertImagePullSecretsLoop (dest.length == 0) add path

/-- `annotationUpdate` (webhook.go lines 236-256).  For each pair to set: if
the destination map is nil or holds the key with value `""` (which Go map
indexing also yields for a missing key), emit an `add` of the whole
annotations object with a single-key map and reset `dest` to an empty map for
the remaining pairs; otherwise emit a `replace` at the concatenated path. -/
def annotationUpdate : AnnMap → List (String × String) → List Operation
  | _, [] => []
  | dest, (key, value) :: rest =>
      if annGet dest key == "" then
        { op := "add", path := "/metadata/annotations",
          value := .stringMap [(key, value)] }
          :: annotationUpdate (some []) rest
      else
        { op := "replace", path := "/metadata/annotations/" ++ key,
          value := .str value }
          :: annotationUpdate dest rest

/-- `createpatch` (webhook.go lines 258-269): the ordered concatenation of the
four op groups.  The trailing `json.Marshal` of the op list is external
serialization and cannot fail on these values, so the patch document is
modelled as the operation list itself. -/
def createpatch (pod : Pod) (sidecarConfig : Config) (ann : List (String × String)) :
    List Operation :=
  insertContainer pod.spec.containers sidecarConfig.containers "/spec/containers"
    ++ insertVolume pod.spec.volumes sidecarConfig.volumes "/spec/volumes"
    ++ insertImagePullSecrets pod.spec.imagePullSecrets sidecarConfig.imagePullSecret
        "/spec/imagePullSecrets"
    ++ annotationUpdate pod.metadata.annotations ann

/-- Modelled from the spec: the defaulting pass of `applyDefaultsWorkaround`
(webhook.go lines 124-132) delegates to the external Kubernetes
`runtime.ObjectDefaulter`, which is not part of this repository.  The spec
(section 4.1 step 4) says the incoming spec's entries "must have their
implicit defaults applied exactly as the target orchestration schema would";
we model one representative schema default — an unset image-pull policy
becomes "IfNotPresent" — and leave already-defaulted entries unchanged. -/
def defaultContainer (c : Container) : Container :=
  if c.imagePullPolicy == "" then { c with imagePullPolicy := "IfNotPresent" } else c

/-- `applyDefaultsWorkaround` (webhook.go lines 124-132) as a function on the
configuration it mutates: in Go the shared `SidecarConfig` slices are passed
into a throwaway pod and defaulted in place through the shared backing
arrays; here the updated configuration value is returned explicitly. -/
def applyDefaultsWorkaround (cfg : Config) : Config :=
  { cfg with containers := cfg.containers.map defaultContainer }

/-- Projection of `metav1.Status`: only the message field is ever set. -/
structure Status where
  message : String
deriving DecidableEq, Repr

/-- Projection of `v1beta1.AdmissionResponse` as webhook.go populates it.
Field defaults are the Go zero values. -/
structure AdmissionResponse where
  uid : String := ""
  allowed : Bool := false
  result : Option Status := none
  patch : Option (List Operation) := none
  patchType : Option String := none
deriving DecidableEq, Repr

/-- Projection of `v1beta1.AdmissionRequest`: the correlation UID and the raw
serialized target resource bytes (modelled as a string). -/
structure AdmissionRequest where
  uid : String
  raw : String
deriving DecidableEq, Repr

/-- Projection of `v1beta1.AdmissionReview` on the request side: the `Request`
field is a nilable pointer, so it is an `Option`. -/
structure AdmissionReview where
  request : Option AdmissionRequest
deriving DecidableEq, Repr

/-- The response-side review envelope written back by the handler. -/
structure ResponseReview where
  response : Option AdmissionResponse
deriving DecidableEq, Repr

/-- The body of `mutation` (webhook.go lines 272-316) after the
`req.Object.Raw` dereference, with the outcome of the external
`json.Unmarshal` supplied as `decoded`.  On unmarshal failure only the status
message is set; when mutation is not required the response is bare
`Allowed: true`; otherwise the shared config is defaulted in place (returned
here as the new state), the status annotation map is fixed to
`[(webhookStatusKey, "injected")]`, and the patch is attached with the
JSONPatch patch-type marker. -/
def mutationCore (cfg : Config) (decoded : Except String Pod) :
    Config × AdmissionResponse :=
  match decoded with
  | .error e => (cfg, { result := some { message := e } })
  | .ok pod =>
      if !requiredMutation pod.metadata then
        (cfg, { allowed := true })
      else
        let cfg' := applyDefaultsWorkaround cfg
        let ann : List (String × String) := [(webhookStatusKey, "injected")]
        (cfg', { allowed := true,
                 patch := some (createpatch pod cfg' ann),
                 patchType := some "JSONPatch" })

/-- `mutation` (webhook.go lines 272-282) entry: `req := ar.Request` followed
by `json.Unmarshal(req.Object.Raw, ...)`.  When the decoded review carries no
request, `req` is a nil pointer and `req.Object` is a nil-pointer
dereference — a Go runtime panic, modelled as `none` (no result is ever
produced).  `unmarshalPod` is the external JSON decoder applied to the raw
resource bytes. -/
def mutation (unmarshalPod : String → Except String Pod) (cfg : Config)
    (ar : AdmissionReview) : Option (Config × AdmissionResponse) :=
  match ar.request with
  | none => none
  | some req => some (mutationCore cfg (unmarshalPod req.raw))

/-- `webhookMutation` (webhook.go lines 339-358) after the body and
content-type checks, with the outcome of the external `deserializer.Decode`
supplied as `decoded`.  On decode failure the response carries only the error
message (and the zero-valued review has a nil request, so no UID is copied);
on success `mutation` runs — `none` propagates a panic, in which case no
envelope is written — and the response UID is overwritten with the request
UID whenever the request is present. -/
def webhookMutation (unmarshalPod : String → Except String Pod) (cfg : Config)
    (decoded : Except String AdmissionReview) : Option (Config × ResponseReview) :=
  match decoded with
  | .error e =>
      some (cfg, { response := some { result := some { message := e } } })
  | .ok aRequest =>
      match mutation unmarshalPod cfg aRequest with
      | none => none
      | some (cfg', aResponse) =>
          match aRequest.request with
          | some req => some (cfg', { response := some { aResponse with uid := req.uid } })
          | none => some (cfg', { response := some aResponse })

/-- The TLS credential pair loaded by the external `tls.LoadX509KeyPair`,
opaque to the core. -/
structure CertPair where
  cert : String
  key : String
deriving DecidableEq, Repr

/-- The mutable state of `WebHookServer` guarded by `Lock`: the sidecar
configuration and the TLS credential pair installed in the server's
`TLSConfig`. -/
structure ServerState where
  sidecarConfig : Config
  tlsPair : CertPair
deriving DecidableEq, Repr

/-- The debounce-fire arm of `Run`'s select loop (webhook.go lines 394-409):
`loadConfig`, whose failure breaks out with the state untouched; then
`tls.LoadX509KeyPair`, whose failure likewise breaks out with the state
untouched; only when both succeed are the configuration and the TLS pair
replaced together inside the single critical section.  The two load outcomes
are inputs, since file I/O is external. -/
def reloadStep (st : ServerState) (loadCfg : Except String Config)
    (loadPair : Except String CertPair) : ServerState :=
  match loadCfg with
  | .error _ => st
  | .ok sidecarConfig =>
      match loadPair with
      | .error _ => st
      | .ok pair => { sidecarConfig := sidecarConfig, tlsPair := pair }

end Webhook

namespace Webhook

/-- Example sidecar configuration used by witness instances. -/
def exCfg : Config :=
  { containers := [{ name := "mesher", image := "mesher:latest", imagePullPolicy := "Always" }],
    volumes := [], imagePullSecret := [] }

/-- Example pod with a nil annotation map, used by the claim-C1 witness. -/
def exPodNone : Pod :=
  { metadata := { ns := "default", name := "demo", annotations := none },
    spec := { containers := [], volumes := [], imagePullSecrets := [] } }

/-- Example pod opting in to injection, with an extra unrelated annotation,
used by the claim-C10 witness. -/
def exPodA : Pod :=
  { metadata := { ns := "default", name := "demo",
                  annotations := some [("app", "demo"), (webhookInjectKey, "y")] },
    spec := { containers := [], volumes := [], imagePullSecrets := [] } }

/-- Example pod opting in to injection, with a different unrelated annotation,
used by the claim-C10 witness. -/
def exPodB : Pod :=
  { metadata := { ns := "default", name := "demo",
                  annotations := some [(webhookInjectKey, "y"), ("team", "x")] },
    spec := { containers := [], volumes := [], imagePullSecrets := [] } }

theorem insertContainerLoop_false_eq_map (add : List Container) (path : String) :
    insertContainerLoop false add path =
      add.map (fun c => { op := "add", path := path ++ "/-", value := .container c }) := by
  induction add with
  | nil => rfl
  | cons a rest ih => simp [insertContainerLoop, ih]

theorem insertVolumeLoop_false_eq_map (add : List Volume) (path : String) :
    insertVolumeLoop false add path =
      add.map (fun v => { op := "add", path := path ++ "/-", value := .volume v }) := by
  induction add with
  | nil => rfl
  | cons a rest ih => simp [insertVolumeLoop, ih]

theorem insertImagePullSecretsLoop_false_eq_map (add : List LocalObjectReference)
    (path : String) :
    insertImagePullSecretsLoop false add path =
      add.map (fun s => { op := "add", path := path ++ "/-", value := .secret s }) := by
  induction add with
  | nil => rfl
  | cons a rest ih => simp [insertImagePullSecretsLoop, ih]

end Webhook

namespace Webhook

/-- Claim C1: mutation is required iff the inject annotation lower-cases to
"y" or "yes" and the status annotation does not lower-case to "injected"; in
every other combination (missing annotations included, since a nil map and a
missing key both read as "") the engine returns a bare allow-true response
with no patch. -/
theorem requiredMutation_policy (cfg : Config) (pod : Pod) :
    (requiredMutation pod.metadata =
      ((stringsToLower (annGet pod.metadata.annotations webhookInjectKey) == "y"
          || stringsToLower (annGet pod.metadata.annotations webhookInjectKey) == "yes")
        && !(stringsToLower (annGet pod.metadata.annotations webhookStatusKey) == "injected")))
    ∧ (requiredMutation pod.metadata = false →
        mutationCore cfg (.ok pod) = (cfg, { allowed := true })) := by
  constructor
  · unfold requiredMutation
    cases hs : (stringsToLower (annGet pod.metadata.annotations webhookStatusKey) == "injected")
    · cases hi : (stringsToLower (annGet pod.metadata.annotations webhookInjectKey) == "y"
          || stringsToLower (annGet pod.metadata.annotations webhookInjectKey) == "yes") <;>
        simp [hs, hi]
    · simp [hs]
  · intro h
    simp [mutationCore, h]

/-- Witness for claim C1 at a pod whose annotation map is nil: mutation is not
required and the engine answers allow-true with no patch. -/
theorem requiredMutation_policy_witness :
    requiredMutation exPodNone.metadata = false
    ∧ mutationCore exCfg (.ok exPodNone) = (exCfg, { allowed := true }) :=
  ⟨by decide, (requiredMutation_policy exCfg exPodNone).2 (by decide)⟩

/-- Claim C2 counterexample: with an empty existing container list and two
incoming containers, the emitted container ops are not a single `add` at
`/spec/containers` carrying the whole two-element list — the code emits the
first container alone as a one-element list and appends the second with the
end marker. -/
theorem insertContainer_empty_two_not_single_op :
    insertContainer []
        [{ name := "a", image := "i", imagePullPolicy := "p" },
         { name := "b", image := "j", imagePullPolicy := "q" }] "/spec/containers"
      ≠ [{ op := "add", path := "/spec/containers",
           value := .containerList
             [{ name := "a", image := "i", imagePullPolicy := "p" },
              { name := "b", image := "j", imagePullPolicy := "q" }] }] := by
  decide

/-- Claim C2 (amended): when the existing list is empty and the incoming list
is non-empty, the first incoming element is emitted as one `add` at the bare
path carrying the one-element list holding it, and every later element is an
`add` at the path with the append-to-end marker; when the existing list is
non-empty, every incoming element is such an appending `add`; the same policy
holds for containers, volumes and image-pull secrets. -/
theorem insert_policy_shape (cdest cadd : List Container) (vdest vadd : List Volume)
    (sdest sadd : List LocalObjectReference) (cpath vpath spath : String) :
    (insertContainer cdest cadd cpath =
      match cdest, cadd with
      | [], a :: rest =>
          { op := "add", path := cpath, value := .containerList [a] }
            :: rest.map (fun c => { op := "add", path := cpath ++ "/-", value := .container c })
      | _, _ =>
          cadd.map (fun c => { op := "add", path := cpath ++ "/-", value := .container c }))
    ∧ (insertVolume vdest vadd vpath =
      match vdest, vadd with
      | [], a :: rest =>
          { op := "add", path := vpath, value := .volumeList [a] }
            :: rest.map (fun v => { op := "add", path := vpath ++ "/-", value := .volume v })
      | _, _ =>
          vadd.map (fun v => { op := "add", path := vpath ++ "/-", value := .volume v }))
    ∧ (insertImagePullSecrets sdest sadd spath =
      match sdest, sadd with
      | [], a :: rest =>
          { op := "add", path := spath, value := .secretList [a] }
            :: rest.map (fun s => { op := "add", path := spath ++ "/-", value := .secret s })
      | _, _ =>
          sadd.map (fun s => { op := "add", path := spath ++ "/-", value := .secret s })) := by
  refine ⟨?_, ?_, ?_⟩
  · cases cdest <;> cases cadd <;>
      simp [insertContainer, insertContainerLoop, insertContainerLoop_false_eq_map]
  · cases vdest <;> cases vadd <;>
      simp [insertVolume, insertVolumeLoop, insertVolumeLoop_false_eq_map]
  · cases sdest <;> cases sadd <;>
      simp [insertImagePullSecrets, insertImagePullSecretsLoop,
        insertImagePullSecretsLoop_false_eq_map]

/-- Claim C3: for the caller's single status pair, the annotation ops are one
`add` of the whole annotations object carrying the single-key map when the
destination map is nil or reads "" at the status key (nil map, absent key and
empty value all read as ""), and otherwise one `replace` at the concatenated
status-key path. -/
theorem annotationUpdate_status_branch (ann : AnnMap) :
    annotationUpdate ann [(webhookStatusKey, "injected")] =
      (if annGet ann webhookStatusKey == "" then
        [{ op := "add", path := "/metadata/annotations",
           value := .stringMap [(webhookStatusKey, "injected")] }]
      else
        [{ op := "replace", path := "/metadata/annotations/" ++ webhookStatusKey,
           value := .str "injected" }]) := by
  cases h : (annGet ann webhookStatusKey == "") <;>
    simp [annotationUpdate, h]

end Webhook

namespace Webhook

/-- Claim C4 fails on the code: an admission review that decodes successfully
but carries no request payload reaches the nil-pointer dereference
`req.Object.Raw` in `mutation` (webhook.go line 275) and panics, so no
response envelope is produced at all — contrary to the stated guarantee that
per-request errors are only ever reported in the envelope's message field. -/
theorem webhookMutation_nil_request_no_envelope
    (unmarshalPod : String → Except String Pod) (cfg : Config) :
    webhookMutation unmarshalPod cfg (.ok { request := none }) = none := rfl

/-- Claim C5: whenever the decoded review carries a request, the handler
produces an envelope whose response UID equals the request UID (the UID copy
at webhook.go lines 355-357 runs on every non-nil response). -/
theorem webhookMutation_uid_mirrors_request
    (unmarshalPod : String → Except String Pod) (cfg : Config) (req : AdmissionRequest) :
    ∃ cfg' resp,
      webhookMutation unmarshalPod cfg (.ok { request := some req })
        = some (cfg', { response := some resp })
      ∧ resp.uid = req.uid := by
  rcases hmc : mutationCore cfg (unmarshalPod req.raw) with ⟨c, r⟩
  exact ⟨c, { r with uid := req.uid }, by simp [webhookMutation, mutation, hmc], rfl⟩

/-- Claim C6: the debounce-fire reload is all-or-nothing — if loading the
configuration file or loading the certificate pair fails, the server state
(sidecar spec and TLS pair together) is exactly what it was before the
attempt. -/
theorem reloadStep_failure_preserves_state (st : ServerState)
    (loadCfg : Except String Config) (loadPair : Except String CertPair)
    (h : (∃ e, loadCfg = .error e) ∨ (∃ e, loadPair = .error e)) :
    reloadStep st loadCfg loadPair = st := by
  rcases h with ⟨e, rfl⟩ | ⟨e, rfl⟩
  · rfl
  · cases loadCfg <;> rfl

/-- Witness for claim C6: a failing configuration load with a fresh
certificate pair available leaves the previous state untouched. -/
theorem reloadStep_failure_preserves_state_witness :
    reloadStep { sidecarConfig := exCfg, tlsPair := { cert := "old-cert", key := "old-key" } }
        (.error "invalid yaml") (.ok { cert := "new-cert", key := "new-key" })
      = { sidecarConfig := exCfg, tlsPair := { cert := "old-cert", key := "old-key" } } :=
  reloadStep_failure_preserves_state _ _ _ (Or.inl ⟨"invalid yaml", rfl⟩)

/-- Claim C7 counterexample: handling a mutating admission request does change
the stored sidecar spec — the per-request defaulting workaround fills the
empty image-pull policy of the configured container in place, so the
configuration left behind differs from the one loaded. -/
theorem mutation_defaults_spec_in_place :
    (mutationCore
        { containers := [{ name := "sidecar", image := "img", imagePullPolicy := "" }],
          volumes := [], imagePullSecret := [] }
        (.ok { metadata := { ns := "default", name := "p",
                             annotations := some [(webhookInjectKey, "yes")] },
               spec := { containers := [], volumes := [], imagePullSecrets := [] } })).1
      ≠ { containers := [{ name := "sidecar", image := "img", imagePullPolicy := "" }],
          volumes := [], imagePullSecret := [] } := by
  decide

/-- Claim C7 (amended): request handling changes the active sidecar spec only
by replacing it with its defaulted form, and only when the request decodes
and requires mutation; the defaulting pass is idempotent, so a spec already
in defaulted form is left unchanged by every request. -/
theorem mutationCore_state_only_defaulting (cfg : Config) (decoded : Except String Pod) :
    ((mutationCore cfg decoded).1 =
      match decoded with
      | .ok pod => if requiredMutation pod.metadata then applyDefaultsWorkaround cfg else cfg
      | .error _ => cfg)
    ∧ applyDefaultsWorkaround (applyDefaultsWorkaround cfg) = applyDefaultsWorkaround cfg := by
  constructor
  · cases decoded with
    | error e => rfl
    | ok pod => cases h : requiredMutation pod.metadata <;> simp [mutationCore, h]
  · have hidem : ∀ c : Container, defaultContainer (defaultContainer c) = defaultContainer c := by
      intro c
      by_cases h : c.imagePullPolicy == "" <;> simp [defaultContainer, h]
    simp [applyDefaultsWorkaround, List.map_map, Function.comp_def, hidem]

/-- Claim C9: the engine's response carries an error result exactly when the
raw resource bytes fail to deserialize (then: message set, not allowed, no
patch); on every successful decode the response is allowed with no error
result, and it carries a patch exactly when mutation is required. -/
theorem mutationCore_error_iff_decode_failure (cfg : Config) (decoded : Except String Pod) :
    match decoded with
    | .error e => (mutationCore cfg decoded).2 = { result := some { message := e } }
    | .ok pod =>
        (mutationCore cfg decoded).2.result = none
        ∧ (mutationCore cfg decoded).2.allowed = true
        ∧ (mutationCore cfg decoded).2.patch.isSome = requiredMutation pod.metadata := by
  cases decoded with
  | error e => rfl
  | ok pod => cases h : requiredMutation pod.metadata <;> simp [mutationCore, h]

end Webhook

namespace Webhook

theorem requiredMutation_congr (m m' : ObjectMeta)
    (hi : annGet m.annotations webhookInjectKey = annGet m'.annotations webhookInjectKey)
    (hs : annGet m.annotations webhookStatusKey = annGet m'.annotations webhookStatusKey) :
    requiredMutation m = requiredMutation m' := by
  unfold requiredMutation
  rw [hi, hs]

theorem annotationUpdate_single_congr (ann ann' : AnnMap) (k v : String)
    (h : annGet ann k = annGet ann' k) :
    annotationUpdate ann [(k, v)] = annotationUpdate ann' [(k, v)] := by
  simp only [annotationUpdate, h]

/-- Claim C10: the consulted and written annotation keys are exactly the two
literal mesher.io keys; two pods with the same spec whose annotation maps
agree on those two keys (however they differ elsewhere) get the identical
decision and the identical response, and the annotation content a mutating
patch writes is always the single status-to-injected pair. -/
theorem annotation_keys_localized (cfg : Config) (p q : Pod)
    (hspec : p.spec = q.spec)
    (hinject : annGet p.metadata.annotations webhookInjectKey
             = annGet q.metadata.annotations webhookInjectKey)
    (hstatus : annGet p.metadata.annotations webhookStatusKey
             = annGet q.metadata.annotations webhookStatusKey) :
    webhookInjectKey = "sidecar-injector-mesher.io/inject"
    ∧ webhookStatusKey = "sidecar-injector-mesher.io/status"
    ∧ requiredMutation p.metadata = requiredMutation q.metadata
    ∧ (mutationCore cfg (.ok p)).2 = (mutationCore cfg (.ok q)).2
    ∧ (mutationCore cfg (.ok p)).2.patch =
        (if requiredMutation p.metadata then
          some (createpatch p (applyDefaultsWorkaround cfg) [(webhookStatusKey, "injected")])
        else none) := by
  have hreq := requiredMutation_congr p.metadata q.metadata hinject hstatus
  refine ⟨rfl, rfl, hreq, ?_, ?_⟩
  · cases h : requiredMutation p.metadata with
    | false => simp [mutationCore, h, hreq ▸ h]
    | true =>
        have hq : requiredMutation q.metadata = true := hreq ▸ h
        have hcp : createpatch p (applyDefaultsWorkaround cfg) [(webhookStatusKey, "injected")]
            = createpatch q (applyDefaultsWorkaround cfg) [(webhookStatusKey, "injected")] := by
          unfold createpatch
          rw [hspec, annotationUpdate_single_congr _ _ _ _ hstatus]
        simp [mutationCore, h, hq, hcp]
  · cases h : requiredMutation p.metadata <;> simp [mutationCore, h]

/-- Witness for claim C10: two pods differing in an unrelated annotation but
agreeing on the two mesher.io keys receive the identical response. -/
theorem annotation_keys_localized_witness :
    annGet exPodA.metadata.annotations webhookInjectKey
      = annGet exPodB.metadata.annotations webhookInjectKey
    ∧ (mutationCore exCfg (.ok exPodA)).2 = (mutationCore exCfg (.ok exPodB)).2 :=
  ⟨by decide,
   (annotation_keys_localized exCfg exPodA exPodB rfl (by decide) (by decide)).2.2.2.1⟩

end Webhook
